import Mathlib

/-!
Verification of the scoring, classification, navigation and guidance-selection
core of the AI risk / readiness assessment application
(src/ai-risk-assessment-2.py and src/rai-controls-assessment.py).

The response dictionary of the application is keyed by strings of the form
"i_j" where i is a category index (0..4, five categories in ASSESSMENT_DATA
of either variant) and j a question index (0..1, two questions per category).
Every key ever inserted by the UI is of that form, and a dict holds each key
at most once, so a ResponseSet is embedded as a function from the valid key
space to an optional recorded risk weight.  Python float arithmetic on these
small fractions is exact, so percentages are embedded as rationals.
-/

/-- Option risk weights of the five categories of ASSESSMENT_DATA in
src/ai-risk-assessment-2.py: each category has two questions, each question
three options with risk weights 0, 1, 2. -/
def assessmentCategories : List (String × List (List Nat)) :=
  [("Governance & Oversight Controls", [[0, 1, 2], [0, 1, 2]]),
   ("Technical & Security Controls", [[0, 1, 2], [0, 1, 2]]),
   ("Operational Process Controls", [[0, 1, 2], [0, 1, 2]]),
   ("Transparency & Accountability Controls", [[0, 1, 2], [0, 1, 2]]),
   ("Data Privacy & Protection Controls", [[0, 1, 2], [0, 1, 2]])]

/-- Option risk weights of the five tenet categories of ASSESSMENT_DATA in
src/rai-controls-assessment.py: the same shape as the risk variant. -/
def assessmentCategoriesTenets : List (String × List (List Nat)) :=
  [("Fairness Tenet", [[0, 1, 2], [0, 1, 2]]),
   ("Privacy Tenet", [[0, 1, 2], [0, 1, 2]]),
   ("Security Tenet", [[0, 1, 2], [0, 1, 2]]),
   ("Transparency Tenet", [[0, 1, 2], [0, 1, 2]]),
   ("Accountability Tenet", [[0, 1, 2], [0, 1, 2]])]

/-- Number of categories of the schema (len(categories) in the source). -/
def numCategories : Nat := assessmentCategories.length

/-- Number of questions in each category of the schema (both variants list
two questions in every category). -/
def questionsPerCategory : Nat := 2

/-- Total number of questions, as computed in the source by
sum(len(cat_data[questions]) for cat_data in ASSESSMENT_DATA.values()). -/
def totalQuestions : Nat := (assessmentCategories.map (fun c => c.2.length)).sum

/-- A ResponseSet: st.session_state.responses, the dict from valid question
keys (category index, question index) to the recorded risk weight. -/
abbrev ResponseSet := Fin 5 → Fin 2 → Option Nat

/-- Number of recorded answers: len(responses). -/
def answeredCount (responses : ResponseSet) : Nat :=
  ∑ i : Fin 5, ∑ j : Fin 2, if (responses i j).isSome then 1 else 0

/-- Sum of all recorded risk weights: sum(responses.values()). -/
def weightedSum (responses : ResponseSet) : Nat :=
  ∑ i : Fin 5, ∑ j : Fin 2, (responses i j).getD 0

/-- Result of the overall scoring functions: the level string, display color
and percentage of the dict returned by the source. -/
structure LevelResult where
  level : String
  color : String
  percentage : ℚ
deriving DecidableEq

/-- Embedding of calculate_risk_level of src/ai-risk-assessment-2.py. -/
def calculate_risk_level (responses : ResponseSet) : Option LevelResult :=
  if answeredCount responses = 0 then none
  else
    let total_risk : ℚ := (weightedSum responses : ℚ)
    let max_possible_risk : ℚ := (answeredCount responses : ℚ) * 2
    let risk_percentage : ℚ := total_risk / max_possible_risk * 100
    if risk_percentage ≤ 25 then some ⟨"LOW", "#10b981", risk_percentage⟩
    else if risk_percentage ≤ 60 then some ⟨"MEDIUM", "#f59e0b", risk_percentage⟩
    else some ⟨"HIGH", "#ef4444", risk_percentage⟩

/-- Embedding of calculate_readiness_level of src/rai-controls-assessment.py. -/
def calculate_readiness_level (responses : ResponseSet) : Option LevelResult :=
  if answeredCount responses = 0 then none
  else
    let total_score : ℚ := (weightedSum responses : ℚ)
    let max_possible_score : ℚ := (answeredCount responses : ℚ) * 2
    let readiness_percentage : ℚ :=
      (max_possible_score - total_score) / max_possible_score * 100
    if 75 ≤ readiness_percentage then some ⟨"ADVANCED", "#10b981", readiness_percentage⟩
    else if 50 ≤ readiness_percentage then
      some ⟨"DEVELOPING", "#f59e0b", readiness_percentage⟩
    else some ⟨"BASIC", "#ef4444", readiness_percentage⟩

/-- Per-category answer list with default 0, as built in the chart functions:
[responses.get(key, 0) for q in range(2)]. -/
def categoryResponsesDefaulted (responses : ResponseSet) (i : Fin 5) : List Nat :=
  (List.finRange 2).map fun j => (responses i j).getD 0

/-- Per-category average risk weight, as computed in create_radar_chart and
create_classification_levels_chart of both variants:
sum(category_responses) / len(category_responses) if category_responses else 0. -/
def categoryAverage (responses : ResponseSet) (i : Fin 5) : ℚ :=
  let rs := categoryResponsesDefaulted responses i
  if rs.isEmpty then 0 else (rs.sum : ℚ) / (rs.length : ℚ)

/-- A row of the classification-levels chart data (category label, level
string, bar position, color, and the score stored with it: risk_score in the
risk variant, readiness_score in the readiness variant). -/
structure CatData where
  category : String
  level : String
  position : Nat
  color : String
  score : ℚ
deriving DecidableEq

/-- Category labels of create_classification_levels_chart in
src/ai-risk-assessment-2.py. -/
def riskChartCategories : List String :=
  ["Governance", "Technical", "Operational", "Transparency", "Privacy"]

/-- One row of create_classification_levels_chart of
src/ai-risk-assessment-2.py: avg_risk of at most 0.5 is Low, at most 1.5 is
Medium, above that High. -/
def riskCatData (responses : ResponseSet) (i : Fin 5) : CatData :=
  let avg := categoryAverage responses i
  if avg ≤ 0.5 then ⟨riskChartCategories.getD i.val "", "Low", 25, "#10B981", avg⟩
  else if avg ≤ 1.5 then ⟨riskChartCategories.getD i.val "", "Medium", 50, "#F59E0B", avg⟩
  else ⟨riskChartCategories.getD i.val "", "High", 75, "#EF4444", avg⟩

/-- Embedding of create_classification_levels_chart of
src/ai-risk-assessment-2.py (the risk variant). -/
def create_classification_levels_chart_risk (responses : ResponseSet) : List CatData :=
  (List.finRange 5).map (riskCatData responses)

/-- Category labels of create_classification_levels_chart in
src/rai-controls-assessment.py. -/
def readinessChartCategories : List String :=
  ["Fairness", "Privacy", "Security", "Transparency", "Accountability"]

/-- One row of create_classification_levels_chart of
src/rai-controls-assessment.py: readiness_score = (2 - avg)/2*100; at least
75 is Advanced, at least 50 Developing, below that Basic. -/
def readinessCatData (responses : ResponseSet) (i : Fin 5) : CatData :=
  let avg := categoryAverage responses i
  let readiness_score : ℚ := (2 - avg) / 2 * 100
  if 75 ≤ readiness_score then
    ⟨readinessChartCategories.getD i.val "", "Advanced", 75, "#10B981", readiness_score⟩
  else if 50 ≤ readiness_score then
    ⟨readinessChartCategories.getD i.val "", "Developing", 50, "#F59E0B", readiness_score⟩
  else ⟨readinessChartCategories.getD i.val "", "Basic", 25, "#EF4444", readiness_score⟩

/-- Embedding of create_classification_levels_chart of
src/rai-controls-assessment.py (the readiness variant). -/
def create_classification_levels_chart_ready (responses : ResponseSet) : List CatData :=
  (List.finRange 5).map (readinessCatData responses)

/-- Recommendation gate of display_results in src/ai-risk-assessment-2.py:
the RECOMMENDATIONS block is rendered iff the overall level is MEDIUM or
HIGH (and nothing is rendered when the result is None). -/
def showRecommendations (responses : ResponseSet) : Bool :=
  match calculate_risk_level responses with
  | none => false
  | some result => result.level == "MEDIUM" || result.level == "HIGH"

/-- Tenets at Basic level, as selected in display_results of
src/rai-controls-assessment.py for the immediate-actions block. -/
def basicTenets (responses : ResponseSet) : List CatData :=
  (create_classification_levels_chart_ready responses).filter fun cat => cat.level == "Basic"

/-- Tenets at Developing level, as selected in display_results of
src/rai-controls-assessment.py. -/
def developingTenets (responses : ResponseSet) : List CatData :=
  (create_classification_levels_chart_ready responses).filter fun cat =>
    cat.level == "Developing"

/-- Tenet names needing improvement, as selected in display_results of
src/rai-controls-assessment.py: categories at Developing or Basic level. -/
def improvementNeeded (responses : ResponseSet) : List String :=
  ((create_classification_levels_chart_ready responses).filter fun cat =>
    cat.level == "Developing" || cat.level == "Basic").map CatData.category

/-- Session state of either variant: st.session_state.responses,
st.session_state.current_category, st.session_state.assessment_complete. -/
structure SessionState where
  responses : ResponseSet
  current_category : Nat
  assessment_complete : Bool

/-- The session state created at session start (responses = {},
current_category = 0, assessment_complete = False). -/
def initialSessionState : SessionState :=
  { responses := fun _ _ => none, current_category := 0, assessment_complete := false }

/-- Restart ("Take Assessment Again" in display_results): all session keys
are deleted and the next run recreates the initial state. -/
def restartSession (_ : SessionState) : SessionState := initialSessionState

/-- Membership test for a question key in the responses dict (key in
responses): a key outside the valid key space is never present, since the UI
only ever inserts keys built from schema indices. -/
def hasKey (responses : ResponseSet) (c q : Nat) : Bool :=
  if hc : c < 5 then
    if hq : q < 2 then (responses ⟨c, hc⟩ ⟨q, hq⟩).isSome else false
  else false

/-- Completeness check of display_assessment_form (both variants):
all(key in responses for q_idx in range(len(questions))). -/
def isCategoryComplete (responses : ResponseSet) (c : Nat) : Bool :=
  (List.range questionsPerCategory).all fun q => hasKey responses c q

/-- Forward navigation of display_assessment_form (both variants): on a
non-final category the Next action advances only when the current category is
complete; on the final category the View Results action marks the assessment
complete only when len(responses) equals the total question count.  A gated
action that is unavailable leaves the state unchanged. -/
def nextStep (st : SessionState) : SessionState :=
  if st.current_category < numCategories - 1 then
    if isCategoryComplete st.responses st.current_category then
      { st with current_category := st.current_category + 1 }
    else st
  else
    if answeredCount st.responses = totalQuestions then
      { st with assessment_complete := true }
    else st

/-- Errors of the Answer Store record operation described by the spec. -/
inductive RecordError
  | invalidIndex
  | invalidWeight
deriving DecidableEq

/-- Modelled from the spec: the Answer Store operation
record(category_index, question_index, risk_weight) is described in the spec
(sections 4.1 and 7) but src only contains its caller
(display_assessment_form writes schema-derived keys and weights straight
into the dict); the range-checking store itself is not in src.  It inserts
or overwrites the entry at the key, fails with InvalidIndex when an index is
outside schema bounds and with InvalidWeight when the weight is not in
{0,1,2}. -/
def record (responses : ResponseSet) (c q w : Nat) :
    Except RecordError ResponseSet :=
  if hc : c < numCategories then
    if hq : q < questionsPerCategory then
      if w ≤ 2 then
        .ok fun i j =>
          if i = ⟨c, Nat.lt_of_lt_of_le hc (by decide)⟩ ∧
              j = ⟨q, Nat.lt_of_lt_of_le hq (by decide)⟩ then some w
          else responses i j
      else .error .invalidWeight
    else .error .invalidIndex
  else .error .invalidIndex

/-- State seen by the caller after a record attempt: the updated ResponseSet
on success, the prior one on a validation failure. -/
def recordOrKeep (responses : ResponseSet) (c q w : Nat) : ResponseSet :=
  match record responses c q w with
  | .ok updated => updated
  | .error _ => responses

/-- Sample ResponseSet: every question answered with the weight-0 option. -/
def allZeroResponses : ResponseSet := fun _ _ => some 0

/-- Sample ResponseSet: every question answered with the weight-1 option. -/
def allOneResponses : ResponseSet := fun _ _ => some 1

/-- Sample ResponseSet: category 0 answered with weights 1 and 2 (average
1.5), every other question answered with weight 0. -/
def mixedHighCat0 : ResponseSet := fun i j =>
  if i.val = 0 then (if j.val = 0 then some 1 else some 2) else some 0

/-! ## Helper lemmas about the scoring engine -/

/-- A non-empty ResponseSet always yields a risk result, whose percentage is
total risk over twice the answered count, times 100. -/
theorem risk_level_isSome_percentage (responses : ResponseSet)
    (hne : answeredCount responses ≠ 0) :
    ∃ result, calculate_risk_level responses = some result ∧
      result.percentage =
        (weightedSum responses : ℚ) / ((answeredCount responses : ℚ) * 2) * 100 := by
  simp only [calculate_risk_level, if_neg hne]
  split_ifs <;> exact ⟨_, rfl, rfl⟩

/-- A non-empty ResponseSet always yields a readiness result, whose
percentage is the inverted-risk formula of the source. -/
theorem readiness_level_isSome_percentage (responses : ResponseSet)
    (hne : answeredCount responses ≠ 0) :
    ∃ result, calculate_readiness_level responses = some result ∧
      result.percentage =
        ((answeredCount responses : ℚ) * 2 - (weightedSum responses : ℚ)) /
          ((answeredCount responses : ℚ) * 2) * 100 := by
  simp only [calculate_readiness_level, if_neg hne]
  split_ifs <;> exact ⟨_, rfl, rfl⟩

/-! ## Claim theorems -/

/-- C1: for every non-empty ResponseSet with weights in 0,1,2, the overall
risk percentage equals (sum of recorded weights) / (answered count times 2)
times 100, and the level is LOW iff that percentage is at most 25, MEDIUM
iff it is above 25 and at most 60, and HIGH iff it is above 60 (so the
boundary values 25 and 60 classify as LOW and MEDIUM respectively). -/
theorem risk_overall_percentage_and_levels (responses : ResponseSet)
    (hne : answeredCount responses ≠ 0)
    ( _hw : ∀ i j w, responses i j = some w → w ∈ ({0, 1, 2} : Finset Nat)) :
    ∃ result, calculate_risk_level responses = some result ∧
      result.percentage =
        (weightedSum responses : ℚ) / ((answeredCount responses : ℚ) * 2) * 100 ∧
      (result.level = "LOW" ↔ result.percentage ≤ 25) ∧
      (result.level = "MEDIUM" ↔ 25 < result.percentage ∧ result.percentage ≤ 60) ∧
      (result.level = "HIGH" ↔ 60 < result.percentage) := by
  simp only [calculate_risk_level, if_neg hne]
  split_ifs with h1 h2
  · refine ⟨_, rfl, rfl, ?_, ?_, ?_⟩
    · exact iff_of_true rfl h1
    · exact iff_of_false (by dsimp only; decide) fun hc => absurd h1 (not_le.mpr hc.1)
    · exact iff_of_false (by dsimp only; decide) (not_lt.mpr (h1.trans (by norm_num)))
  · refine ⟨_, rfl, rfl, ?_, ?_, ?_⟩
    · exact iff_of_false (by dsimp only; decide) h1
    · exact iff_of_true rfl ⟨not_le.mp h1, h2⟩
    · exact iff_of_false (by dsimp only; decide) (not_lt.mpr h2)
  · refine ⟨_, rfl, rfl, ?_, ?_, ?_⟩
    · exact iff_of_false (by dsimp only; decide) fun hle => h1 (hle.trans (by norm_num))
    · exact iff_of_false (by dsimp only; decide) fun hc => h2 hc.2
    · exact iff_of_true rfl (not_le.mp h2)

/-- Witness for risk_overall_percentage_and_levels at the all-ones
ResponseSet (10 answers of weight 1, risk percentage 50). -/
theorem risk_overall_percentage_and_levels_witness :
    ∃ result, calculate_risk_level allOneResponses = some result ∧
      result.percentage =
        (weightedSum allOneResponses : ℚ) /
          ((answeredCount allOneResponses : ℚ) * 2) * 100 ∧
      (result.level = "LOW" ↔ result.percentage ≤ 25) ∧
      (result.level = "MEDIUM" ↔ 25 < result.percentage ∧ result.percentage ≤ 60) ∧
      (result.level = "HIGH" ↔ 60 < result.percentage) :=
  risk_overall_percentage_and_levels allOneResponses (by decide)
    (by intro i j w h; injection h with h; subst h; decide)

/-- C2: for every non-empty ResponseSet with weights in 0,1,2, the overall
readiness percentage equals ((answered count times 2) minus the sum of
recorded weights) / (answered count times 2) times 100, and the level is
ADVANCED iff that percentage is at least 75, DEVELOPING iff it is at least
50 and below 75, and BASIC iff it is below 50 (so the boundary values 75 and
50 classify as ADVANCED and DEVELOPING respectively). -/
theorem readiness_overall_percentage_and_levels (responses : ResponseSet)
    (hne : answeredCount responses ≠ 0)
    ( _hw : ∀ i j w, responses i j = some w → w ∈ ({0, 1, 2} : Finset Nat)) :
    ∃ result, calculate_readiness_level responses = some result ∧
      result.percentage =
        ((answeredCount responses : ℚ) * 2 - (weightedSum responses : ℚ)) /
          ((answeredCount responses : ℚ) * 2) * 100 ∧
      (result.level = "ADVANCED" ↔ 75 ≤ result.percentage) ∧
      (result.level = "DEVELOPING" ↔ 50 ≤ result.percentage ∧ result.percentage < 75) ∧
      (result.level = "BASIC" ↔ result.percentage < 50) := by
  simp only [calculate_readiness_level, if_neg hne]
  split_ifs with h1 h2
  · refine ⟨_, rfl, rfl, ?_, ?_, ?_⟩
    · exact iff_of_true rfl h1
    · exact iff_of_false (by dsimp only; decide) fun hc => absurd h1 (not_le.mpr hc.2)
    · exact iff_of_false (by dsimp only; decide) (not_lt.mpr ((by norm_num : (50:ℚ) ≤ 75).trans h1))
  · refine ⟨_, rfl, rfl, ?_, ?_, ?_⟩
    · exact iff_of_false (by dsimp only; decide) h1
    · exact iff_of_true rfl ⟨h2, not_le.mp h1⟩
    · exact iff_of_false (by dsimp only; decide) (not_lt.mpr h2)
  · refine ⟨_, rfl, rfl, ?_, ?_, ?_⟩
    · exact iff_of_false (by dsimp only; decide) fun h75 => h2 ((by norm_num : (50:ℚ) ≤ 75).trans h75)
    · exact iff_of_false (by dsimp only; decide) fun hc => h2 hc.1
    · exact iff_of_true rfl (not_le.mp h2)

/-- Witness for readiness_overall_percentage_and_levels at the all-ones
ResponseSet (readiness percentage 50). -/
theorem readiness_overall_percentage_and_levels_witness :
    ∃ result, calculate_readiness_level allOneResponses = some result ∧
      result.percentage =
        ((answeredCount allOneResponses : ℚ) * 2 - (weightedSum allOneResponses : ℚ)) /
          ((answeredCount allOneResponses : ℚ) * 2) * 100 ∧
      (result.level = "ADVANCED" ↔ 75 ≤ result.percentage) ∧
      (result.level = "DEVELOPING" ↔ 50 ≤ result.percentage ∧ result.percentage < 75) ∧
      (result.level = "BASIC" ↔ result.percentage < 50) :=
  readiness_overall_percentage_and_levels allOneResponses (by decide)
    (by intro i j w h; injection h with h; subst h; decide)

/-- C6: the empty ResponseSet gives no result in either scoring mode, and a
result exists exactly when at least one answer is recorded. -/
theorem empty_responses_no_result :
    calculate_risk_level (fun _ _ => none) = none ∧
    calculate_readiness_level (fun _ _ => none) = none ∧
    ∀ responses : ResponseSet,
      ((calculate_risk_level responses).isSome ↔ 0 < answeredCount responses) ∧
      ((calculate_readiness_level responses).isSome ↔ 0 < answeredCount responses) := by
  refine ⟨by decide, by decide, fun responses => ⟨?_, ?_⟩⟩
  · rcases Nat.eq_zero_or_pos (answeredCount responses) with h | h
    · simp [calculate_risk_level, h]
    · have hne : answeredCount responses ≠ 0 := Nat.pos_iff_ne_zero.mp h
      simp only [calculate_risk_level, if_neg hne]
      split_ifs <;> simp [h]
  · rcases Nat.eq_zero_or_pos (answeredCount responses) with h | h
    · simp [calculate_readiness_level, h]
    · have hne : answeredCount responses ≠ 0 := Nat.pos_iff_ne_zero.mp h
      simp only [calculate_readiness_level, if_neg hne]
      split_ifs <;> simp [h]

/-- C9: for every non-empty ResponseSet, the readiness percentage equals 100
minus the risk percentage computed from the same responses. -/
theorem readiness_is_inverted_risk (responses : ResponseSet)
    (hne : answeredCount responses ≠ 0) :
    ∃ riskResult readyResult,
      calculate_risk_level responses = some riskResult ∧
      calculate_readiness_level responses = some readyResult ∧
      readyResult.percentage = 100 - riskResult.percentage := by
  obtain ⟨a, ha, hpa⟩ := risk_level_isSome_percentage responses hne
  obtain ⟨b, hb, hpb⟩ := readiness_level_isSome_percentage responses hne
  refine ⟨a, b, ha, hb, ?_⟩
  have hpos : (0 : ℚ) < (answeredCount responses : ℚ) := by
    exact_mod_cast Nat.pos_of_ne_zero hne
  have h2 : ((answeredCount responses : ℚ) * 2) ≠ 0 := ne_of_gt (by linarith)
  rw [hpa, hpb]
  field_simp
  ring

/-- Witness for readiness_is_inverted_risk at the all-ones ResponseSet. -/
theorem readiness_is_inverted_risk_witness :
    ∃ riskResult readyResult,
      calculate_risk_level allOneResponses = some riskResult ∧
      calculate_readiness_level allOneResponses = some readyResult ∧
      readyResult.percentage = 100 - riskResult.percentage :=
  readiness_is_inverted_risk allOneResponses (by decide)

/-- Completeness of a category, expressed through its Fin-indexed questions. -/
theorem isCategoryComplete_val_iff (responses : ResponseSet) (i : Fin 5) :
    isCategoryComplete responses i.val = true ↔ ∀ j : Fin 2, (responses i j).isSome := by
  constructor
  · intro h j
    have h2 := List.all_eq_true.mp h j.val
      (List.mem_range.mpr (by simp [questionsPerCategory]))
    simpa [hasKey, i.isLt, j.isLt, Fin.eta] using h2
  · intro h
    refine List.all_eq_true.mpr fun q hq => ?_
    have hq2 : q < 2 := by simpa [questionsPerCategory] using List.mem_range.mp hq
    simpa [hasKey, i.isLt, hq2, Fin.eta] using h ⟨q, hq2⟩

/-- The dict holds all totalQuestions answers exactly when every question of
every category is answered. -/
theorem answeredCount_eq_total_iff (responses : ResponseSet) :
    answeredCount responses = totalQuestions ↔
      ∀ (i : Fin 5) (j : Fin 2), (responses i j).isSome := by
  have htot : totalQuestions = 10 := by decide
  rw [htot]
  constructor
  · intro h
    by_contra hnot
    push_neg at hnot
    obtain ⟨i, j, hij⟩ := hnot
    have hnone : responses i j = none := by
      cases hcase : responses i j with
      | none => rfl
      | some v => rw [hcase] at hij; simp at hij
    have hinner : (∑ jj : Fin 2, if (responses i jj).isSome then 1 else 0) ≤ 1 := by
      rw [← Finset.add_sum_erase Finset.univ _ (Finset.mem_univ j)]
      have hz : (if (responses i j).isSome then 1 else 0) = 0 := by simp [hnone]
      rw [hz, zero_add]
      have hcard : (Finset.univ.erase j).card = 1 := by
        rw [Finset.card_erase_of_mem (Finset.mem_univ j)]
        simp
      calc (∑ jj ∈ Finset.univ.erase j, if (responses i jj).isSome then 1 else 0)
          ≤ ∑ _jj ∈ Finset.univ.erase j, 1 :=
            Finset.sum_le_sum fun jj _ => by split_ifs <;> omega
        _ = 1 := by rw [Finset.sum_const, hcard, smul_eq_mul, one_mul]
    have hbound : ∀ ii : Fin 5,
        (∑ jj : Fin 2, if (responses ii jj).isSome then 1 else 0) ≤ 2 := by
      intro ii
      rw [Fin.sum_univ_two]
      split_ifs <;> omega
    have hlt : answeredCount responses < ∑ _ii : Fin 5, 2 := by
      unfold answeredCount
      refine Finset.sum_lt_sum (fun ii _ => hbound ii)
        ⟨i, Finset.mem_univ i, Nat.lt_of_le_of_lt hinner (by norm_num)⟩
    have h10 : (∑ _ii : Fin 5, 2) = 10 := by decide
    omega
  · intro h
    have hconst : answeredCount responses = ∑ _i : Fin 5, ∑ _j : Fin 2, 1 := by
      unfold answeredCount
      refine Finset.sum_congr rfl fun ii _ => Finset.sum_congr rfl fun jj _ => ?_
      rw [if_pos (h ii jj)]
    rw [hconst]
    decide

/-- C4: the Next action advances from a non-final category only when every
question of that category is answered, the final View Results action marks
the assessment complete only when every question of every category is
answered, a failed gate leaves the state unchanged, and the assessment is
never newly marked complete while a question is unanswered. -/
theorem next_transition_gated_on_completeness (st : SessionState) :
    (∀ i : Fin 5, st.current_category = i.val →
      st.current_category < numCategories - 1 →
      ((∀ j, (st.responses i j).isSome) →
        nextStep st = { st with current_category := st.current_category + 1 }) ∧
      ((∃ j, st.responses i j = none) → nextStep st = st)) ∧
    (st.current_category = numCategories - 1 →
      ((∀ i j, (st.responses i j).isSome) →
        nextStep st = { st with assessment_complete := true }) ∧
      ((∃ i j, st.responses i j = none) → nextStep st = st)) ∧
    ((nextStep st).assessment_complete = true →
      st.assessment_complete = true ∨ ∀ i j, (st.responses i j).isSome) := by
  refine ⟨?_, ?_, ?_⟩
  · intro i hi hlt
    constructor
    · intro hall
      have hcomp : isCategoryComplete st.responses st.current_category = true := by
        rw [hi]
        exact (isCategoryComplete_val_iff st.responses i).mpr hall
      simp [nextStep, hlt, hcomp]
    · intro hex
      obtain ⟨j, hj⟩ := hex
      have hcomp : ¬ isCategoryComplete st.responses st.current_category = true := by
        rw [hi]
        intro hc
        have := (isCategoryComplete_val_iff st.responses i).mp hc j
        simp [hj] at this
      simp [nextStep, hlt, hcomp]
  · intro hcur
    have hnlt : ¬ st.current_category < numCategories - 1 := by
      rw [hcur]
      exact lt_irrefl _
    constructor
    · intro hall
      have hcount : answeredCount st.responses = totalQuestions :=
        (answeredCount_eq_total_iff st.responses).mpr hall
      simp [nextStep, hnlt, hcount]
    · intro hex
      obtain ⟨i, j, hij⟩ := hex
      have hcount : ¬ answeredCount st.responses = totalQuestions := by
        intro hc
        have := (answeredCount_eq_total_iff st.responses).mp hc i j
        simp [hij] at this
      simp [nextStep, hnlt, hcount]
  · intro hcomplete
    by_cases hlt : st.current_category < numCategories - 1
    · left
      unfold nextStep at hcomplete
      rw [if_pos hlt] at hcomplete
      split_ifs at hcomplete <;> exact hcomplete
    · by_cases hcount : answeredCount st.responses = totalQuestions
      · right
        exact (answeredCount_eq_total_iff st.responses).mp hcount
      · left
        unfold nextStep at hcomplete
        rw [if_neg hlt, if_neg hcount] at hcomplete
        exact hcomplete

/-- Witness for next_transition_gated_on_completeness: with every question
answered and the final category active, View Results marks the assessment
complete; with nothing answered and category 0 active, Next is rejected. -/
theorem next_transition_gated_on_completeness_witness :
    nextStep { responses := allZeroResponses, current_category := numCategories - 1,
               assessment_complete := false } =
      { responses := allZeroResponses, current_category := numCategories - 1,
        assessment_complete := true } ∧
    nextStep { responses := fun _ _ => none, current_category := 0,
               assessment_complete := false } =
      { responses := fun _ _ => none, current_category := 0,
        assessment_complete := false } :=
  ⟨((next_transition_gated_on_completeness _).2.1 rfl).1 (fun _ _ => rfl),
   (((next_transition_gated_on_completeness _).1 0 rfl (by decide)).2 ⟨0, rfl⟩)⟩

/-- C8: after Restart from any state, the responses dict is empty, the
current category index is 0 and the assessment-complete flag is false. -/
theorem restart_resets_session (st : SessionState) :
    (restartSession st).responses = (fun _ _ => none) ∧
    answeredCount (restartSession st).responses = 0 ∧
    (restartSession st).current_category = 0 ∧
    (restartSession st).assessment_complete = false := by
  refine ⟨rfl, ?_, rfl, rfl⟩
  show answeredCount (fun _ _ => none) = 0
  decide

/-- The per-category average of the chart functions is the sum of the two
(default-0) recorded weights of the category divided by its question count. -/
theorem categoryAverage_eq (responses : ResponseSet) (i : Fin 5) :
    categoryAverage responses i =
      (((responses i 0).getD 0 : ℚ) + ((responses i 1).getD 0 : ℚ)) / 2 := by
  have hfr : (List.finRange 2) = [0, 1] := by decide
  simp only [categoryAverage, categoryResponsesDefaulted, hfr, List.map_cons, List.map_nil,
    List.isEmpty_cons, if_false, List.sum_cons, List.sum_nil, List.length_cons,
    List.length_nil, Bool.false_eq_true]
  push_cast
  ring

/-- A category the risk chart classifies Low has average risk at most 0.5. -/
theorem riskCatData_level_low (responses : ResponseSet) (i : Fin 5)
    (h : (riskCatData responses i).level = "Low") :
    categoryAverage responses i ≤ 0.5 := by
  by_contra hgt
  simp only [riskCatData] at h
  rw [if_neg hgt] at h
  split_ifs at h
  · exact absurd h (by dsimp only; decide)
  · exact absurd h (by dsimp only; decide)

/-- C3 counterexample: with category 0 answered by the weight-1 and weight-2
options, its average risk is 1.5, a risk percentage of 75, which is above
60, yet create_classification_levels_chart of the risk variant classifies
the category Medium, not High. -/
theorem category_level_not_high_above_60 :
    60 < categoryAverage mixedHighCat0 0 / 2 * 100 ∧
    (riskCatData mixedHighCat0 0).level = "Medium" ∧
    (riskCatData mixedHighCat0 0).level ≠ "High" := by
  have havg : categoryAverage mixedHighCat0 0 = 3 / 2 := by
    rw [categoryAverage_eq]
    simp [mixedHighCat0]
    norm_num
  refine ⟨by rw [havg]; norm_num, ?_, ?_⟩
  · simp only [riskCatData, havg]
    rw [if_neg (by norm_num), if_pos (by norm_num)]
  · simp only [riskCatData, havg]
    rw [if_neg (by norm_num), if_pos (by norm_num)]
    decide

/-- C3 (amended): the per-category risk classification shares the overall
classifier's 25 breakpoint between Low and Medium, but its breakpoint
between Medium and High is a risk percentage of 75 (average risk 1.5), not
the overall classifier's 60: Low iff the category risk percentage is at most
25, Medium iff it is above 25 and at most 75, High iff it is above 75. -/
theorem category_risk_level_breakpoints (responses : ResponseSet) (i : Fin 5) :
    ((riskCatData responses i).level = "Low" ↔
      categoryAverage responses i / 2 * 100 ≤ 25) ∧
    ((riskCatData responses i).level = "Medium" ↔
      25 < categoryAverage responses i / 2 * 100 ∧
        categoryAverage responses i / 2 * 100 ≤ 75) ∧
    ((riskCatData responses i).level = "High" ↔
      75 < categoryAverage responses i / 2 * 100) := by
  simp only [riskCatData]
  split_ifs with h1 h2
  · have hp : categoryAverage responses i / 2 * 100 ≤ 25 := by
      rw [show (0.5 : ℚ) = 1/2 by norm_num] at h1
      linarith
    refine ⟨iff_of_true rfl hp, ?_, ?_⟩
    · exact iff_of_false (by dsimp only; decide) fun hc => absurd hp (not_le.mpr hc.1)
    · exact iff_of_false (by dsimp only; decide) (not_lt.mpr (hp.trans (by norm_num)))
  · have hgt : 25 < categoryAverage responses i / 2 * 100 := by
      rw [show (0.5 : ℚ) = 1/2 by norm_num] at h1
      have := not_le.mp h1
      linarith
    have hle : categoryAverage responses i / 2 * 100 ≤ 75 := by
      rw [show (1.5 : ℚ) = 3/2 by norm_num] at h2
      linarith
    refine ⟨?_, iff_of_true rfl ⟨hgt, hle⟩, ?_⟩
    · exact iff_of_false (by dsimp only; decide) (not_le.mpr hgt)
    · exact iff_of_false (by dsimp only; decide) (not_lt.mpr hle)
  · have hgt75 : 75 < categoryAverage responses i / 2 * 100 := by
      rw [show (1.5 : ℚ) = 3/2 by norm_num] at h2
      have := not_le.mp h2
      linarith
    refine ⟨?_, ?_, iff_of_true rfl hgt75⟩
    · exact iff_of_false (by dsimp only; decide)
        (not_le.mpr ((by norm_num : (25:ℚ) < 75).trans hgt75))
    · exact iff_of_false (by dsimp only; decide) fun hc => absurd hc.2 (not_le.mpr hgt75)

/-- C5: the per-category average equals the sum of the recorded weights of
the category's questions (unanswered questions contributing 0) divided by
the fixed question count 2, it lies in [0,2] for weights in 0,1,2, and a
category with no answers averages to 0. -/
theorem category_average_formula_and_bounds (responses : ResponseSet)
    (hw : ∀ i j w, responses i j = some w → w ∈ ({0, 1, 2} : Finset Nat)) (i : Fin 5) :
    categoryAverage responses i =
      (((responses i 0).getD 0 : ℚ) + ((responses i 1).getD 0 : ℚ)) / 2 ∧
    0 ≤ categoryAverage responses i ∧ categoryAverage responses i ≤ 2 ∧
    (responses i 0 = none → responses i 1 = none → categoryAverage responses i = 0) := by
  have heq := categoryAverage_eq responses i
  have hb : ∀ j : Fin 2, ((responses i j).getD 0 : ℚ) ≤ 2 := by
    intro j
    cases hj : responses i j with
    | none => simp
    | some w =>
      have hmem := hw i j w hj
      simp only [Finset.mem_insert, Finset.mem_singleton] at hmem
      simp only [hj, Option.getD_some]
      rcases hmem with h | h | h <;> subst h <;> norm_num
  refine ⟨heq, ?_, ?_, ?_⟩
  · rw [heq]
    positivity
  · rw [heq]
    have h0 := hb 0
    have h1 := hb 1
    linarith
  · intro h0 h1
    rw [heq, h0, h1]
    norm_num

/-- Witness for category_average_formula_and_bounds at the all-zeros
ResponseSet, category 0. -/
theorem category_average_formula_and_bounds_witness :
    categoryAverage allZeroResponses 0 =
      (((allZeroResponses 0 0).getD 0 : ℚ) + ((allZeroResponses 0 1).getD 0 : ℚ)) / 2 ∧
    0 ≤ categoryAverage allZeroResponses 0 ∧ categoryAverage allZeroResponses 0 ≤ 2 ∧
    (allZeroResponses 0 0 = none → allZeroResponses 0 1 = none →
      categoryAverage allZeroResponses 0 = 0) :=
  category_average_formula_and_bounds allZeroResponses
    (by intro i j w h; injection h with h; subst h; decide) 0

/-- C7: record fails with InvalidIndex on an out-of-bounds category or
question index, fails with InvalidWeight on a weight outside 0,1,2, and on
any failure the caller retains the unchanged ResponseSet. -/
theorem record_validation_errors (responses : ResponseSet) (c q w : Nat) :
    (¬ (c < numCategories ∧ q < questionsPerCategory) →
      record responses c q w = .error .invalidIndex) ∧
    (c < numCategories → q < questionsPerCategory → w ∉ ({0, 1, 2} : Finset Nat) →
      record responses c q w = .error .invalidWeight) ∧
    (∀ e, record responses c q w = .error e →
      recordOrKeep responses c q w = responses) := by
  refine ⟨?_, ?_, ?_⟩
  · intro hni
    unfold record
    rcases Decidable.em (c < numCategories) with hc | hc
    · rcases Decidable.em (q < questionsPerCategory) with hq | hq
      · exact absurd ⟨hc, hq⟩ hni
      · rw [dif_pos hc, dif_neg hq]
    · rw [dif_neg hc]
  · intro hc hq hwmem
    have hw2 : ¬ w ≤ 2 := by
      intro hle
      apply hwmem
      simp only [Finset.mem_insert, Finset.mem_singleton]
      omega
    unfold record
    rw [dif_pos hc, dif_pos hq, if_neg hw2]
  · intro e he
    unfold recordOrKeep
    rw [he]

/-- Witness for record_validation_errors: category index 7 is rejected as
InvalidIndex, weight 9 as InvalidWeight, and a failed record leaves the
ResponseSet unchanged. -/
theorem record_validation_errors_witness :
    record allZeroResponses 7 0 1 = .error .invalidIndex ∧
    record allZeroResponses 0 0 9 = .error .invalidWeight ∧
    recordOrKeep allZeroResponses 7 0 1 = allZeroResponses :=
  ⟨(record_validation_errors allZeroResponses 7 0 1).1 (by decide),
   (record_validation_errors allZeroResponses 0 0 9).2.1 (by decide) (by decide) (by decide),
   (record_validation_errors allZeroResponses 7 0 1).2.2 RecordError.invalidIndex rfl⟩

/-- The dict-wide weight sum decomposes into per-category sums. -/
theorem weightedSum_eq_catSums (responses : ResponseSet) :
    weightedSum responses =
      ∑ i : Fin 5, ((responses i 0).getD 0 + (responses i 1).getD 0) := by
  unfold weightedSum
  refine Finset.sum_congr rfl fun i _ => ?_
  rw [Fin.sum_univ_two]

/-- C10: for a complete ResponseSet whose every category is classified at
the best bucket (Low risk, Advanced readiness), the result views select no
guidance entries: the risk variant's recommendations block is not shown, and
the readiness variant selects no immediate actions and no improvement
entries. -/
theorem all_best_no_guidance (responses : ResponseSet)
    (hcomplete : ∀ (i : Fin 5) (j : Fin 2), (responses i j).isSome)
    (hriskLow : ∀ i, (riskCatData responses i).level = "Low")
    (hready : ∀ i, (readinessCatData responses i).level = "Advanced") :
    showRecommendations responses = false ∧
    basicTenets responses = [] ∧
    improvementNeeded responses = [] := by
  have hcount : answeredCount responses = 10 := by
    have h := (answeredCount_eq_total_iff responses).mpr hcomplete
    have htot : totalQuestions = 10 := by decide
    rw [htot] at h
    exact h
  have hne : answeredCount responses ≠ 0 := by rw [hcount]; omega
  have hcat : ∀ i : Fin 5, (responses i 0).getD 0 + (responses i 1).getD 0 ≤ 1 := by
    intro i
    have havg := riskCatData_level_low responses i (hriskLow i)
    rw [categoryAverage_eq] at havg
    rw [show (0.5 : ℚ) = 1/2 by norm_num] at havg
    have hq : (((responses i 0).getD 0 : ℚ) + ((responses i 1).getD 0 : ℚ)) ≤ 1 := by
      linarith
    exact_mod_cast hq
  have hsum : weightedSum responses ≤ 5 := by
    rw [weightedSum_eq_catSums]
    calc (∑ i : Fin 5, ((responses i 0).getD 0 + (responses i 1).getD 0))
        ≤ ∑ _i : Fin 5, 1 := Finset.sum_le_sum fun i _ => hcat i
      _ = 5 := by simp
  have hlp : ((weightedSum responses : ℚ) /
      ((answeredCount responses : ℚ) * 2) * 100) ≤ 25 := by
    rw [hcount]
    have hq : (weightedSum responses : ℚ) ≤ 5 := by exact_mod_cast hsum
    push_cast
    linarith
  refine ⟨?_, ?_, ?_⟩
  · unfold showRecommendations
    simp only [calculate_risk_level, if_neg hne]
    rw [if_pos hlp]
    rfl
  · refine List.filter_eq_nil_iff.mpr fun cat hcat2 => ?_
    obtain ⟨i, rfl⟩ : ∃ i, readinessCatData responses i = cat := by
      simpa [create_classification_levels_chart_ready] using hcat2
    intro hbad
    rw [hready i] at hbad
    exact absurd hbad (by decide)
  · have hfil : ((create_classification_levels_chart_ready responses).filter fun cat =>
        cat.level == "Developing" || cat.level == "Basic") = [] := by
      refine List.filter_eq_nil_iff.mpr fun cat hcat2 => ?_
      obtain ⟨i, rfl⟩ : ∃ i, readinessCatData responses i = cat := by
        simpa [create_classification_levels_chart_ready] using hcat2
      intro hbad
      rw [hready i] at hbad
      exact absurd hbad (by decide)
    unfold improvementNeeded
    rw [hfil]
    rfl

/-- Witness for all_best_no_guidance at the all-zeros ResponseSet (every
question answered with the best-practice option). -/
theorem all_best_no_guidance_witness :
    showRecommendations allZeroResponses = false ∧
    basicTenets allZeroResponses = [] ∧
    improvementNeeded allZeroResponses = [] :=
  all_best_no_guidance allZeroResponses (fun _ _ => rfl)
    (by
      intro i
      have havg : categoryAverage allZeroResponses i = 0 := by
        rw [categoryAverage_eq]
        simp [allZeroResponses]
      simp only [riskCatData, havg]
      rw [if_pos (by norm_num)])
    (by
      intro i
      have havg : categoryAverage allZeroResponses i = 0 := by
        rw [categoryAverage_eq]
        simp [allZeroResponses]
      simp only [readinessCatData, havg]
      rw [if_pos (by norm_num)])
